import Mathlib

/-!
Verification of the client bootstrap data-preload mechanism: the
`__preloadData` script embedded in the page template.  The script resolves a
tenant (organization) slug and an API host from `window.__initialData`, issues
three credentialed GET requests, and publishes the in-flight futures in the
page-global registry `window.__sentry_preload`.

The embedding below models JavaScript string-or-`undefined` values as
`Option String` (with `none` standing for `undefined`), JS truthiness of such
values, the string coercion performed by the `+` operator, and the synchronous
part of `__preloadData` as a pure function from the initial page data to the
final page state (published registry plus the list of issued requests, in
issuance order).  The asynchronous settlement of each request's promise is
modelled separately by `promiseRequestOnload`, a pure function of the response
that the `onload` handler observes.
-/

namespace Preload

/-- A JavaScript value that is either a string or `undefined`:
`none` models `undefined`. -/
abbrev JsStr := Option String

/-- JS truthiness of a string-or-`undefined` value: `undefined` and the empty
string are falsy, every other string is truthy.  This is the test performed by
`!slug` in the script. -/
def jsTruthy : JsStr → Bool
  | none => false
  | some s => s != ""

/-- The string coercion the JS `+` operator applies to a
string-or-`undefined` operand: `undefined` coerces to the literal string
`"undefined"`. -/
def jsString : JsStr → String
  | none => "undefined"
  | some s => s

/-- `window.__initialData.customerDomain`: only its `subdomain` field is read
by the script. -/
structure CustomerDomain where
  subdomain : JsStr
deriving DecidableEq

/-- `window.__initialData.links`: the default host `sentryUrl` and the
region-specific host `regionUrl`; either may be `undefined`. -/
structure Links where
  sentryUrl : JsStr
  regionUrl : JsStr
deriving DecidableEq

/-- `window.__initialData.initialTrace`: the page's initial trace-correlation
pair, rendered into the template's meta tags. -/
structure InitialTrace where
  sentry_trace : String
  baggage : String
deriving DecidableEq

/-- The fields of `window.__initialData` read by `__preloadData`.  `user`
records the truthiness of the authenticated-user marker; `customerDomain` and
`links` are objects that may be absent (`none` models an absent / `undefined`
object, which is falsy). -/
structure InitialData where
  user : Bool
  lastOrganization : JsStr
  customerDomain : Option CustomerDomain
  links : Option Links
  initialTrace : InitialTrace
deriving DecidableEq

/-- Tenant-slug resolution, from
`var slug = window.__initialData.lastOrganization;
 if (!slug && window.__initialData.customerDomain) slug = window.__initialData.customerDomain.subdomain;`:
the customer-domain subdomain is consulted only when `lastOrganization` is
falsy and the customer-domain object is present. -/
def resolveSlug (d : InitialData) : JsStr :=
  match d.customerDomain, jsTruthy d.lastOrganization with
  | some cd, false => cd.subdomain
  | _, _ => d.lastOrganization

/-- Host resolution, from
`var host = '';
 if (window.__initialData.links && window.__initialData.links.regionUrl !== window.__initialData.links.sentryUrl) { var host = window.__initialData.links.regionUrl; }`:
strict inequality (`!==`) on string-or-`undefined` values is exactly
inequality of `Option String`.  Note that when `regionUrl` is `undefined` and
`sentryUrl` is a string, the branch is taken and `host` becomes `undefined`. -/
def resolveHost (d : InitialData) : JsStr :=
  match d.links with
  | some l => if l.regionUrl ≠ l.sentryUrl then l.regionUrl else some ""
  | none => some ""

/-- `makeUrl`, from
`function makeUrl(suffix) { return host + '/api/0/organizations/' + slug + suffix; }`;
JS `+` coerces an `undefined` operand to the string `"undefined"`. -/
def makeUrl (host slug : JsStr) (suffix : String) : String :=
  jsString host ++ "/api/0/organizations/" ++ jsString slug ++ suffix

/-- The URL suffix of the organization request. -/
def organizationSuffix : String := "/?detailed=0"

/-- The URL suffix of the projects request. -/
def projectsSuffix : String :=
  "/projects/?all_projects=1&collapse=latestDeploys&collapse=unusedFeatures"

/-- The URL suffix of the teams request. -/
def teamsSuffix : String := "/teams/"

/-- An issued XMLHttpRequest, as configured by `promiseRequest`: method and
URL from `xhr.open('GET', url)`, the two correlation headers set by
`xhr.setRequestHeader`, and the `xhr.withCredentials` flag. -/
structure Request where
  method : String
  url : String
  sentryTraceHeader : String
  baggageHeader : String
  withCredentials : Bool
deriving DecidableEq

/-- The request configured and sent by `promiseRequest(url)`: a GET to `url`
with the `sentry-trace` and `baggage` headers copied from
`window.__initialData.initialTrace` and `withCredentials = true`. -/
def promiseRequest (t : InitialTrace) (url : String) : Request :=
  { method := "GET"
    url := url
    sentryTraceHeader := t.sentry_trace
    baggageHeader := t.baggage
    withCredentials := true }

/-- The registry object `window.__sentry_preload`: the `orgSlug` key holds the
resolved slug value, and each of the three request keys holds, when assigned,
the promise of the corresponding request (modelled by the request the promise
wraps). -/
structure Registry where
  orgSlug : JsStr
  organization : Option Request
  projects : Option Request
  teams : Option Request
deriving DecidableEq

/-- The observable page state after `__preloadData` returns: the published
registry (`none` when `window.__sentry_preload` was never assigned) and the
network requests issued, in issuance order. -/
structure PreloadState where
  published : Option Registry
  requests : List Request
deriving DecidableEq

/-- The synchronous body of `__preloadData`: return immediately when there is
no logged-in user; otherwise resolve slug and host, publish the registry
(which initially holds only `orgSlug`), return without issuing requests when
the slug is falsy, and otherwise issue the organization, projects and teams
requests in that order, storing each promise in the registry. -/
def preloadData (d : InitialData) : PreloadState :=
  if d.user then
    let slug := resolveSlug d
    let host := resolveHost d
    if jsTruthy slug then
      let rOrg := promiseRequest d.initialTrace (makeUrl host slug organizationSuffix)
      let rProj := promiseRequest d.initialTrace (makeUrl host slug projectsSuffix)
      let rTeams := promiseRequest d.initialTrace (makeUrl host slug teamsSuffix)
      { published := some { orgSlug := slug, organization := some rOrg,
                            projects := some rProj, teams := some rTeams }
        requests := [rOrg, rProj, rTeams] }
    else
      { published := some { orgSlug := slug, organization := none,
                            projects := none, teams := none }
        requests := [] }
  else
    { published := none, requests := [] }

/-! ### Promise settlement

`promiseRequest` settles each promise in its `onload` handler:

    this.status >= 200 && this.status < 300
      ? resolve([JSON.parse(xhr.response), this.statusText, xhr])
      : reject([this.status, this.statusText]);

wrapped in `try { ... } catch (e) { reject(); }`.  Only `JSON.parse` can
throw, and only in the 2xx branch, so a 2xx response with an unparseable body
ends in `reject()` with no argument. -/

/-- What the `onload` handler observes of a completed response: the HTTP
status, the status text, and the result of `JSON.parse(xhr.response)`
(`none` models `JSON.parse` throwing on an unparseable body; the parsed value
is generic in `J`). -/
structure XhrResult (J : Type) where
  status : Nat
  statusText : String
  parsedBody : Option J
deriving DecidableEq

/-- How a promise created by `promiseRequest` settles. -/
inductive Outcome (J : Type) where
  /-- `resolve([JSON.parse(xhr.response), this.statusText, xhr])`: the parsed
  body, the status text, and the raw transport handle. -/
  | resolved : J → String → XhrResult J → Outcome J
  /-- `reject([this.status, this.statusText])`. -/
  | rejectedPair : Nat → String → Outcome J
  /-- `reject()` with no argument, from the `catch` clause. -/
  | rejectedNoDetail : Outcome J
deriving DecidableEq

/-- Whether an outcome is a resolution. -/
def Outcome.isResolved : Outcome J → Bool
  | .resolved _ _ _ => true
  | _ => false

/-- Whether an outcome is a rejection carrying exactly the pair
`[s, st]`. -/
def Outcome.isRejectedPairWith : Outcome J → Nat → String → Bool
  | .rejectedPair a b, s, st => a == s && b == st
  | _, _, _ => false

/-- The payload of a resolution, when the outcome is one. -/
def Outcome.resolvedPayload : Outcome J → Option (J × String × XhrResult J)
  | .resolved j st x => some (j, st, x)
  | _ => none

/-- The settlement computed by the `onload` handler from the completed
response `x`. -/
def promiseRequestOnload (x : XhrResult J) : Outcome J :=
  if 200 ≤ x.status ∧ x.status < 300 then
    match x.parsedBody with
    | some j => Outcome.resolved j x.statusText x
    | none => Outcome.rejectedNoDetail
  else Outcome.rejectedPair x.status x.statusText

/-- The settlement computed by the `onerror` handler (network-level
failure). -/
def promiseRequestOnerror (x : XhrResult J) : Outcome J :=
  Outcome.rejectedPair x.status x.statusText

/-- Boolean form of the 2xx test `this.status >= 200 && this.status < 300`. -/
def statusOk2xx (status : Nat) : Bool :=
  decide (200 ≤ status) && decide (status < 300)

/-- The three preload promises settle independently: the settlement of the
`i`-th promise is computed from the `i`-th response alone. -/
def settleThree (xs : Fin 3 → XhrResult J) (i : Fin 3) : Outcome J :=
  promiseRequestOnload (xs i)

/-! ### The top-level wrapper

`try { __preloadData(); } catch (_) {}` — the only synchronous throw the
script body can produce is a `TypeError` from reading a property of
`window.__initialData` when `__initialData` itself is `undefined` (all other
property accesses are guarded, and exceptions inside the `Promise` executor or
the `onload` handler become rejections, not synchronous throws). -/

/-- A synchronous JavaScript exception. -/
inductive JsError where
  | typeError
deriving DecidableEq

/-- The page window as seen by the script: `__initialData` may be entirely
absent (malformed page data), in which case every property read throws. -/
structure Window where
  initialData : Option InitialData

/-- The untouched page state: no registry published, no requests issued. -/
def emptyState : PreloadState := { published := none, requests := [] }

/-- Running the body of `__preloadData` against the window, with the
synchronous `TypeError` surfaced when `__initialData` is `undefined`. -/
def preloadDataRun (w : Window) : Except JsError PreloadState :=
  match w.initialData with
  | none => Except.error JsError.typeError
  | some d => Except.ok (preloadData d)

/-- The top-level invocation `try { __preloadData(); } catch (_) {}`: a thrown
exception is caught and discarded, leaving the page state untouched. -/
def bootstrap (w : Window) : Except JsError PreloadState :=
  match preloadDataRun w with
  | Except.ok s => Except.ok s
  | Except.error _ => Except.ok emptyState

/-! ### Concrete page data used by witnesses and counterexamples -/

/-- A typical authenticated page: last-used organization `"acme"`, region host
equal to the default host. -/
def dAcme : InitialData :=
  { user := true
    lastOrganization := some "acme"
    customerDomain := some { subdomain := some "sub" }
    links := some { sentryUrl := some "https://sentry.example.com"
                    regionUrl := some "https://sentry.example.com" }
    initialTrace := { sentry_trace := "trace-abc", baggage := "baggage-abc" } }

/-- A page with no authenticated user. -/
def dNoUser : InitialData :=
  { user := false
    lastOrganization := some "acme"
    customerDomain := none
    links := none
    initialTrace := { sentry_trace := "trace-abc", baggage := "baggage-abc" } }

/-- An authenticated page whose `links` object has a default host but no
region host. -/
def dRegionAbsent : InitialData :=
  { user := true
    lastOrganization := some "acme"
    customerDomain := none
    links := some { sentryUrl := some "https://sentry.example.com"
                    regionUrl := none }
    initialTrace := { sentry_trace := "trace-abc", baggage := "baggage-abc" } }

/-! ### Claims -/

/-- C1: for every input with a resolved tenant slug, `__preloadData` issues
exactly three GET requests, in issuance order organization, projects, teams,
whose URLs are the resolved host prefix followed by
`/api/0/organizations/<slug>` and the three fixed suffixes. -/
theorem preload_issues_three_get_requests (d : InitialData) (s : String)
    (hu : d.user = true) (hs : resolveSlug d = some s) (hne : s ≠ "") :
    (preloadData d).requests.map (fun r => (r.method, r.url)) =
      [("GET", jsString (resolveHost d) ++ "/api/0/organizations/" ++ s ++ "/?detailed=0"),
       ("GET", jsString (resolveHost d) ++ "/api/0/organizations/" ++ s ++
          "/projects/?all_projects=1&collapse=latestDeploys&collapse=unusedFeatures"),
       ("GET", jsString (resolveHost d) ++ "/api/0/organizations/" ++ s ++ "/teams/")] := by
  have ht : jsTruthy (some s) = true := by
    simp [jsTruthy, bne_iff_ne, hne]
  simp [preloadData, hu, ht, promiseRequest, makeUrl, hs, jsString,
    organizationSuffix, projectsSuffix, teamsSuffix]

/-- Witness for C1 at the concrete page data `dAcme`. -/
theorem preload_issues_three_get_requests_witness :
    (dAcme.user = true ∧ resolveSlug dAcme = some "acme" ∧ "acme" ≠ "") ∧
    (preloadData dAcme).requests.map (fun r => (r.method, r.url)) =
      [("GET", jsString (resolveHost dAcme) ++ "/api/0/organizations/" ++ "acme" ++ "/?detailed=0"),
       ("GET", jsString (resolveHost dAcme) ++ "/api/0/organizations/" ++ "acme" ++
          "/projects/?all_projects=1&collapse=latestDeploys&collapse=unusedFeatures"),
       ("GET", jsString (resolveHost dAcme) ++ "/api/0/organizations/" ++ "acme" ++ "/teams/")] :=
  ⟨⟨rfl, by decide, by decide⟩,
    preload_issues_three_get_requests dAcme "acme" rfl (by decide) (by decide)⟩

/-- C2: when both a (truthy) last-used-tenant slug and a customer-domain
object are present, the resolved slug is the last-used-tenant value. -/
theorem resolved_slug_last_org_wins (d : InitialData) (s : String)
    (cd : CustomerDomain) (hl : d.lastOrganization = some s) (hne : s ≠ "")
    (hcd : d.customerDomain = some cd) :
    resolveSlug d = some s := by
  have ht : jsTruthy (some s) = true := by
    simp [jsTruthy, bne_iff_ne, hne]
  simp [resolveSlug, hcd, hl, ht]

/-- Witness for C2 at the concrete page data `dAcme`, whose customer domain
carries the subdomain `"sub"`. -/
theorem resolved_slug_last_org_wins_witness :
    (dAcme.lastOrganization = some "acme" ∧ "acme" ≠ "" ∧
      dAcme.customerDomain = some { subdomain := some "sub" }) ∧
    resolveSlug dAcme = some "acme" :=
  ⟨⟨rfl, by decide, rfl⟩,
    resolved_slug_last_org_wins dAcme "acme" { subdomain := some "sub" } rfl (by decide) rfl⟩

/-- C3 counterexample: on `dRegionAbsent` the region host is absent while the
default host is present, yet the resolved host prefix is not the empty string
— the strict-inequality check passes, `host` becomes `undefined`, and every
request URL is prefixed with the literal string `"undefined"` instead of being
a same-origin relative URL. -/
theorem host_empty_when_region_absent_counterexample :
    dRegionAbsent.links = some { sentryUrl := some "https://sentry.example.com",
                                 regionUrl := none } ∧
    resolveHost dRegionAbsent ≠ some "" ∧
    (preloadData dRegionAbsent).requests.map Request.url =
      ["undefined/api/0/organizations/acme/?detailed=0",
       "undefined/api/0/organizations/acme/projects/?all_projects=1&collapse=latestDeploys&collapse=unusedFeatures",
       "undefined/api/0/organizations/acme/teams/"] :=
  ⟨rfl, by decide, by decide⟩

/-- C3 as amended: every request URL is the resolved host prefix followed by
the organization path, and that prefix is the empty string (same-origin
relative request) when the links object is absent or the region host is
strictly equal to the default host; the region host when it differs from the
default host and is present; and the literal string `"undefined"` when the
region host is absent but the default host is present. -/
theorem host_selection_amended (d : InitialData) (hu : d.user = true)
    (hs : jsTruthy (resolveSlug d) = true) :
    (preloadData d).requests.map Request.url =
      [makeUrl (resolveHost d) (resolveSlug d) organizationSuffix,
       makeUrl (resolveHost d) (resolveSlug d) projectsSuffix,
       makeUrl (resolveHost d) (resolveSlug d) teamsSuffix] ∧
    jsString (resolveHost d) =
      (match d.links with
       | none => ""
       | some l =>
         if l.regionUrl = l.sentryUrl then ""
         else
           match l.regionUrl with
           | some r => r
           | none => "undefined") := by
  constructor
  · simp [preloadData, hu, hs, promiseRequest]
  · cases hl : d.links with
    | none => simp [resolveHost, hl, jsString]
    | some l =>
      by_cases he : l.regionUrl = l.sentryUrl
      · simp [resolveHost, hl, he, jsString]
      · cases hr : l.regionUrl <;> rw [hr] at he <;>
          simp [resolveHost, hl, he, hr, jsString]

/-- Witness for the amended C3 at `dAcme`, whose region host equals the
default host, so the issued URLs are same-origin relative URLs. -/
theorem host_selection_amended_witness :
    (dAcme.user = true ∧ jsTruthy (resolveSlug dAcme) = true) ∧
    ((preloadData dAcme).requests.map Request.url =
      [makeUrl (resolveHost dAcme) (resolveSlug dAcme) organizationSuffix,
       makeUrl (resolveHost dAcme) (resolveSlug dAcme) projectsSuffix,
       makeUrl (resolveHost dAcme) (resolveSlug dAcme) teamsSuffix] ∧
     jsString (resolveHost dAcme) =
      (match dAcme.links with
       | none => ""
       | some l =>
         if l.regionUrl = l.sentryUrl then ""
         else
           match l.regionUrl with
           | some r => r
           | none => "undefined")) :=
  ⟨⟨rfl, by decide⟩, host_selection_amended dAcme rfl (by decide)⟩

/-- C4: when no authenticated user is present, or no (truthy) tenant slug
resolves, zero network requests are issued and the published registry (when it
exists at all) holds none of the three request keys — a valid terminal
state. -/
theorem empty_registry_when_no_user_or_no_slug (d : InitialData)
    (h : d.user = false ∨ jsTruthy (resolveSlug d) = false) :
    (preloadData d).requests = [] ∧
    (∀ r : Registry, (preloadData d).published = some r →
      r.organization = none ∧ r.projects = none ∧ r.teams = none) := by
  rcases h with h | h
  · simp [preloadData, h]
  · cases hu : d.user <;> simp [preloadData, hu, h]

/-- Witness for C4 at the concrete page data `dNoUser`. -/
theorem empty_registry_when_no_user_or_no_slug_witness :
    (dNoUser.user = false ∨ jsTruthy (resolveSlug dNoUser) = false) ∧
    ((preloadData dNoUser).requests = [] ∧
     (∀ r : Registry, (preloadData dNoUser).published = some r →
       r.organization = none ∧ r.projects = none ∧ r.teams = none)) :=
  ⟨Or.inl rfl, empty_registry_when_no_user_or_no_slug dNoUser (Or.inl rfl)⟩

/-- C5: every issued request carries credentials and carries the
`sentry-trace` and `baggage` headers copied verbatim from the page's initial
trace context — hence identical across the three requests — for every page
data, independently of which host was selected. -/
theorem requests_carry_credentials_and_trace_headers (d : InitialData)
    (r : Request) (h : r ∈ (preloadData d).requests) :
    r.withCredentials = true ∧
    r.sentryTraceHeader = d.initialTrace.sentry_trace ∧
    r.baggageHeader = d.initialTrace.baggage := by
  by_cases hu : d.user = true
  · by_cases hs : jsTruthy (resolveSlug d) = true
    · simp [preloadData, hu, hs, promiseRequest] at h
      rcases h with h | h | h <;> subst h <;> exact ⟨rfl, rfl, rfl⟩
    · simp [preloadData, hu, hs] at h
  · simp [preloadData, hu] at h

/-- Witness for C5: the organization request of `dAcme` is among the issued
requests and carries the credentials flag and both trace headers. -/
theorem requests_carry_credentials_and_trace_headers_witness :
    (promiseRequest dAcme.initialTrace
        (makeUrl (resolveHost dAcme) (resolveSlug dAcme) organizationSuffix) ∈
      (preloadData dAcme).requests) ∧
    ((promiseRequest dAcme.initialTrace
        (makeUrl (resolveHost dAcme) (resolveSlug dAcme) organizationSuffix)).withCredentials = true ∧
     (promiseRequest dAcme.initialTrace
        (makeUrl (resolveHost dAcme) (resolveSlug dAcme) organizationSuffix)).sentryTraceHeader =
       dAcme.initialTrace.sentry_trace ∧
     (promiseRequest dAcme.initialTrace
        (makeUrl (resolveHost dAcme) (resolveSlug dAcme) organizationSuffix)).baggageHeader =
       dAcme.initialTrace.baggage) :=
  ⟨by decide,
    requests_carry_credentials_and_trace_headers dAcme
      (promiseRequest dAcme.initialTrace
        (makeUrl (resolveHost dAcme) (resolveSlug dAcme) organizationSuffix))
      (by decide)⟩

/-- C6 counterexample: a response with HTTP status 200 — inside `[200, 300)` —
whose body does not parse as JSON does not resolve the promise; the `onload`
handler rejects it with no detail, so resolution is not characterised by the
status range alone. -/
theorem promise_resolution_counterexample :
    (200 ≤ 200 ∧ 200 < 300) ∧
    (promiseRequestOnload ⟨200, "OK", (none : Option Nat)⟩).isResolved = false ∧
    promiseRequestOnload ⟨200, "OK", (none : Option Nat)⟩ = Outcome.rejectedNoDetail :=
  ⟨by decide, by decide, by decide⟩

/-- C6 as amended: a promise resolves with the 3-tuple (parsed body, status
text, raw transport handle) exactly when the status is in `[200, 300)` and
the body parses as JSON; it rejects with the pair (status code, status text)
exactly on a non-2xx status; and the settlement of each of the three promises
is computed from its own response alone, so one request's failure does not
affect the other two. -/
theorem promise_settlement_amended (J : Type) (x : XhrResult J)
    (xs xs' : Fin 3 → XhrResult J) (i : Fin 3) (hi : xs i = xs' i) :
    (promiseRequestOnload x).isResolved = (statusOk2xx x.status && x.parsedBody.isSome) ∧
    (promiseRequestOnload x).resolvedPayload =
      (if statusOk2xx x.status then x.parsedBody.map (fun j => (j, x.statusText, x)) else none) ∧
    (promiseRequestOnload x).isRejectedPairWith x.status x.statusText = !statusOk2xx x.status ∧
    settleThree xs i = settleThree xs' i := by
  by_cases h : 200 ≤ x.status ∧ x.status < 300
  · have hb : statusOk2xx x.status = true := by
      simp [statusOk2xx, h.1, h.2]
    cases hp : x.parsedBody <;>
      exact ⟨by simp [promiseRequestOnload, h, hp, hb, Outcome.isResolved],
             by simp [promiseRequestOnload, h, hp, hb, Outcome.resolvedPayload],
             by simp [promiseRequestOnload, h, hp, hb, Outcome.isRejectedPairWith],
             by simp [settleThree, hi]⟩
  · have hb : statusOk2xx x.status = false := by
      simp only [statusOk2xx, Bool.and_eq_false_iff, decide_eq_false_iff_not]
      omega
    exact ⟨by simp [promiseRequestOnload, h, hb, Outcome.isResolved],
           by simp [promiseRequestOnload, h, hb, Outcome.resolvedPayload],
           by simp [promiseRequestOnload, h, hb, Outcome.isRejectedPairWith],
           by simp [settleThree, hi]⟩

/-- Witness for the amended C6 at a concrete 500 response: the promise is not
resolved and rejects with the pair (500, status text); the independence
conjunct is instantiated with two response assignments that agree at index
0. -/
theorem promise_settlement_amended_witness :
    ((fun _ : Fin 3 => (⟨500, "Internal Server Error", none⟩ : XhrResult Nat)) 0 =
      (fun _ : Fin 3 => (⟨500, "Internal Server Error", none⟩ : XhrResult Nat)) 0) ∧
    ((promiseRequestOnload (⟨500, "Internal Server Error", none⟩ : XhrResult Nat)).isResolved =
        (statusOk2xx 500 && (none : Option Nat).isSome) ∧
     (promiseRequestOnload (⟨500, "Internal Server Error", none⟩ : XhrResult Nat)).resolvedPayload =
        (if statusOk2xx 500 then
           (none : Option Nat).map
             (fun j => (j, "Internal Server Error", (⟨500, "Internal Server Error", none⟩ : XhrResult Nat)))
         else none) ∧
     (promiseRequestOnload (⟨500, "Internal Server Error", none⟩ : XhrResult Nat)).isRejectedPairWith
        500 "Internal Server Error" = !statusOk2xx 500 ∧
     settleThree (fun _ : Fin 3 => (⟨500, "Internal Server Error", none⟩ : XhrResult Nat)) 0 =
       settleThree (fun _ : Fin 3 => (⟨500, "Internal Server Error", none⟩ : XhrResult Nat)) 0) :=
  ⟨rfl,
    promise_settlement_amended Nat ⟨500, "Internal Server Error", none⟩
      (fun _ => ⟨500, "Internal Server Error", none⟩)
      (fun _ => ⟨500, "Internal Server Error", none⟩) 0 rfl⟩

/-- C7 counterexample: a 200 response with an unparseable body is rejected by
`reject()` with no argument, which is not the pair (status code, status text)
that a non-2xx rejection carries — the two failure modes are distinguishable,
not collapsed into one shape. -/
theorem parse_failure_shape_counterexample :
    promiseRequestOnload ⟨200, "OK", (none : Option Nat)⟩ = Outcome.rejectedNoDetail ∧
    Outcome.rejectedNoDetail ≠ (Outcome.rejectedPair 200 "OK" : Outcome Nat) ∧
    promiseRequestOnload ⟨500, "Internal Server Error", (none : Option Nat)⟩ =
      Outcome.rejectedPair 500 "Internal Server Error" :=
  ⟨by decide, by decide, by decide⟩

/-- C7 as amended: a JSON-parse failure on a 2xx body and a non-2xx status
both reject the promise, but with different shapes — the parse failure
rejects with no detail, while the status failure rejects with the pair
(status code, status text) — so the two failure modes remain
distinguishable. -/
theorem parse_failure_shape_amended (J : Type) (x y : XhrResult J)
    (hx : 200 ≤ x.status ∧ x.status < 300) (hp : x.parsedBody = none)
    (hy : ¬(200 ≤ y.status ∧ y.status < 300)) :
    promiseRequestOnload x = Outcome.rejectedNoDetail ∧
    promiseRequestOnload y = Outcome.rejectedPair y.status y.statusText ∧
    promiseRequestOnload x ≠ promiseRequestOnload y := by
  have h1 : promiseRequestOnload x = Outcome.rejectedNoDetail := by
    simp [promiseRequestOnload, hx, hp, hx.1, hx.2]
  have h2 : promiseRequestOnload y = Outcome.rejectedPair y.status y.statusText := by
    simp [promiseRequestOnload, hy]
  exact ⟨h1, h2, by rw [h1, h2]; intro hc; cases hc⟩

/-- Witness for the amended C7 at a 200 response with an unparseable body
versus a 500 response. -/
theorem parse_failure_shape_amended_witness :
    ((200 ≤ 200 ∧ 200 < 300) ∧
     (⟨200, "OK", (none : Option Nat)⟩ : XhrResult Nat).parsedBody = none ∧
     ¬(200 ≤ 500 ∧ (500 : Nat) < 300)) ∧
    (promiseRequestOnload (⟨200, "OK", none⟩ : XhrResult Nat) = Outcome.rejectedNoDetail ∧
     promiseRequestOnload (⟨500, "Internal Server Error", none⟩ : XhrResult Nat) =
       Outcome.rejectedPair 500 "Internal Server Error" ∧
     promiseRequestOnload (⟨200, "OK", none⟩ : XhrResult Nat) ≠
       promiseRequestOnload (⟨500, "Internal Server Error", none⟩ : XhrResult Nat)) :=
  ⟨⟨by decide, rfl, by decide⟩,
    parse_failure_shape_amended Nat ⟨200, "OK", none⟩ ⟨500, "Internal Server Error", none⟩
      (by decide) rfl (by decide)⟩

/-- C8: immediately after `__preloadData` returns, the registry is fully
populated — all three request keys hold a promise — when a user is present
and a tenant slug resolved, and otherwise holds none of the three request
keys (in the no-user case the registry was never published at all, so a
reader likewise sees no keys). -/
theorem registry_all_or_nothing (d : InitialData) :
    (if d.user && jsTruthy (resolveSlug d) then
       (match (preloadData d).published with
        | some r => r.organization.isSome && r.projects.isSome && r.teams.isSome
        | none => false)
     else
       (match (preloadData d).published with
        | some r => r.organization.isNone && r.projects.isNone && r.teams.isNone
        | none => true)) = true := by
  cases hu : d.user <;> cases hs : jsTruthy (resolveSlug d) <;>
    simp [preloadData, hu, hs]

/-- C9: the top-level `try { __preloadData(); } catch (_) {}` never propagates
an exception, for every window — including one whose `__initialData` is
absent, where the body itself does throw a `TypeError`; the exception is
caught and silently discarded. -/
theorem bootstrap_never_throws :
    (∃ w : Window, (preloadDataRun w).isOk = false) ∧
    ∀ w : Window, (bootstrap w).isOk = true := by
  constructor
  · exact ⟨{ initialData := none }, rfl⟩
  · intro w
    cases h : preloadDataRun w <;> simp [bootstrap, h, Except.isOk, Except.toBool]

/-- C10: the registry handle is published exactly when an authenticated user
is present; when a user is present but no tenant slug resolves, the published
registry holds exactly the `orgSlug` key (carrying the absent/falsy slug
value) and none of the three request keys — so a consumer distinguishes "no
user" from "user but no tenant" by the registry's existence. -/
theorem registry_publication_distinguishes_no_user (d : InitialData) :
    (preloadData d).published.isSome = d.user ∧
    (if d.user && !jsTruthy (resolveSlug d) then
       (preloadData d).published =
         some { orgSlug := resolveSlug d, organization := none,
                projects := none, teams := none }
     else True) := by
  cases hu : d.user <;> cases hs : jsTruthy (resolveSlug d) <;>
    simp [preloadData, hu, hs]

end Preload
